import Mathlib

/-!
# Verification of the opcua server session & subscription core

Shallow embedding of `src/server/src/subscriptions/subscription.rs` and
`src/server/src/session.rs`. Rust `u32` counters are modelled as `Nat`
(with explicit wrap where the code wraps, and a checked-subtraction error
where an unguarded `-= 1` would underflow); `f64` millisecond durations and
`chrono` timestamps are modelled as `Int` milliseconds; fallible code
(Rust `panic!` / underflow) is modelled with `Except String`.
-/

namespace Opcua

/-- `std::u32::MAX`, the wrap point of `next_sequence_number`. -/
def MAX_U32 : Nat := 4294967295

/-! ## Continuation points (`src/server/src/session.rs`)

`BrowseContinuationPoint` itself lives in `continuation_point.rs`, which is
not among the sources; only the fields the session code touches are needed.
-/

/-- Modelled from the spec: `continuation_point.rs` is not among the sources.
Spec §3: entries `{id: ByteString, snapshot: OpaqueCursor,
address_space_version: Version}`. The opaque byte-string id is modelled as a
`List Nat` of bytes and the version as `Nat`; the cursor is irrelevant to the
session-level operations and is modelled as an opaque `Nat`. -/
structure BrowseContinuationPoint where
  id : List Nat
  snapshot : Nat
  address_space_version : Nat
deriving DecidableEq, Repr

/-- Modelled from the spec: `is_valid_browse_continuation_point` lives in the
missing `continuation_point.rs`. Spec §3: "invalid if the stored
`address_space_version` no longer matches the current address space"; the
address space is abstracted to its monotonically increasing version counter
(spec §6). -/
def BrowseContinuationPoint.is_valid_browse_continuation_point
    (cp : BrowseContinuationPoint) (address_space_version : Nat) : Bool :=
  cp.address_space_version = address_space_version

/-- The session state relevant to this core (`session.rs`). Identity and
security fields that no operation here reads or writes
(`secure_channel`, certificates, nonces, negotiated sizes, diagnostics)
are out of scope per spec §1 and are omitted; `subscriptions` is kept
abstractly as a list since `subscriptions.rs` is not among the sources and
`session.rs` only stores it. -/
structure Session where
  subscriptions : List Nat
  session_id : Nat
  terminate_session : Bool
  activated : Bool
  session_timeout : Int
  max_browse_continuation_points : Nat
  browse_continuation_points : List BrowseContinuationPoint
  terminated_at : Int
  terminated : Bool
deriving DecidableEq, Repr

/-- `Session::terminated`. -/
def Session.terminated_fn (s : Session) : Bool := s.terminated

/-- `Session::terminated_at`. -/
def Session.terminated_at_fn (s : Session) : Int := s.terminated_at

/-- `Session::set_terminated`. `chrono::Utc::now()` is passed in as `now`.
The Rust body sets the two fields and nothing else. -/
def Session.set_terminated (s : Session) (now : Int) : Session :=
  { s with terminated := true, terminated_at := now }

/-- The `while` loop of `Session::add_browse_continuation_point`:
pop the front while `len >= max`. (For `maxPoints = 0` the Rust loop would
spin forever on an empty deque; the model returns `[]` there, and every
theorem about it assumes `1 ≤ maxPoints`.) -/
def evictExcess (maxPoints : Nat) :
    List BrowseContinuationPoint → List BrowseContinuationPoint
  | [] => []
  | c :: rest =>
    if rest.length + 1 ≥ maxPoints then evictExcess maxPoints rest else c :: rest

/-- `Session::add_browse_continuation_point`: remove excess points from the
front (oldest), then push the new point at the back (newest). -/
def Session.add_browse_continuation_point (s : Session)
    (continuation_point : BrowseContinuationPoint) : Session :=
  { s with browse_continuation_points :=
      evictExcess s.max_browse_continuation_points s.browse_continuation_points
        ++ [continuation_point] }

/-- `Session::find_browse_continuation_point`: linear search by id. Note the
Rust body, despite its doc comment, performs no validity check against the
address space. -/
def Session.find_browse_continuation_point (s : Session) (id : List Nat) :
    Option BrowseContinuationPoint :=
  s.browse_continuation_points.find? (fun cp => cp.id = id)

/-- `Session::remove_expired_browse_continuation_points`. -/
def Session.remove_expired_browse_continuation_points (s : Session)
    (address_space_version : Nat) : Session :=
  { s with browse_continuation_points :=
      s.browse_continuation_points.filter (fun cp =>
        cp.is_valid_browse_continuation_point address_space_version) }

/-- `Session::remove_browse_continuation_point`. -/
def Session.remove_browse_continuation_point (s : Session) (id : List Nat) :
    Session :=
  { s with browse_continuation_points :=
      s.browse_continuation_points.filter (fun cp => !(cp.id = id : Bool)) }

/-! ## Subscriptions (`src/server/src/subscriptions/subscription.rs`) -/

/-- The state of the subscription. -/
inductive SubscriptionState where
  | Closed
  | Creating
  | Normal
  | Late
  | KeepAlive
deriving DecidableEq, Repr

/-- Inputs handed to `update_state`, mirroring `SubscriptionStateParams`. -/
structure SubscriptionStateParams where
  notifications_available : Bool
  more_notifications : Bool
  publishing_req_queued : Bool
  publishing_interval_elapsed : Bool
deriving DecidableEq, Repr

inductive UpdateStateAction where
  | None
  | ReturnKeepAlive
  | ReturnNotifications
deriving DecidableEq, Repr

/-- Values correspond to the state table in OPC UA Part 4 5.13.1.2. -/
inductive HandledState where
  | None0
  | Closed1
  | Create3
  | Normal4
  | Normal5
  | IntervalElapsed6
  | IntervalElapsed7
  | IntervalElapsed8
  | IntervalElapsed9
  | Late10
  | Late11
  | Late12
  | KeepAlive13
  | KeepAlive14
  | KeepAlive15
  | KeepAlive16
  | KeepAlive17
deriving DecidableEq, Repr

structure UpdateStateResult where
  handled_state : HandledState
  update_state_action : UpdateStateAction
deriving DecidableEq, Repr

inductive TickReason where
  | ReceivedPublishRequest
  | TickTimerFired
deriving DecidableEq, Repr

/-- Modelled from the spec: the per-item notification payload produced by a
monitored item (`monitored_item.rs` is not among the sources). Spec §3/§4.1:
a client handle plus a sampled value; the value is abstracted to `Int`. -/
structure MonitoredItemNotification where
  client_handle : Nat
  value : Int
deriving DecidableEq, Repr

/-- Modelled from the spec: `MonitoredItem` (`monitored_item.rs` is not among
the sources). Only the state `subscription.rs` observes is kept: the per-item
FIFO of pending notifications (spec §3), front = oldest. -/
structure MonitoredItem where
  monitored_item_id : Nat
  client_handle : Nat
  notification_queue : List MonitoredItemNotification
deriving DecidableEq, Repr

/-- Modelled from the spec: `MonitoredItem::all_notification_messages` "drains
the per-item FIFO" returning `optional<list>` (spec §4.1): `None` when the
queue is empty, otherwise all pending notifications, leaving the queue empty.
Returned alongside the mutated item. -/
def MonitoredItem.all_notification_messages (m : MonitoredItem) :
    Option (List MonitoredItemNotification) × MonitoredItem :=
  if m.notification_queue.isEmpty then (none, m)
  else (some m.notification_queue, { m with notification_queue := [] })

/-- The effect of `MonitoredItem::tick(address_space, now,
publishing_interval_elapsed, resend_data) → bool` on one item
(`monitored_item.rs` is not among the sources, so the theorems quantify over
every possible behaviour). The address space and `now` are fixed during one
subscription tick and are absorbed into the function; the arguments are the
item, `publishing_interval_elapsed` and `resend_data`. -/
abbrev ItemTickFn := MonitoredItem → Bool → Bool → MonitoredItem × Bool

/-- The panic message at `subscription.rs:423`. -/
def panicSimultaneous : String :=
  "Should not be possible for timer to have expired and received publish request at same time"

/-- The panic message at `subscription.rs:283`. -/
def panicPublishingInterval : String :=
  "Publishing interval should have been revised to min interval"

/-- The checked-subtraction failure of `current_lifetime_count -= 1`
(`subscription.rs:594`) when the counter is already 0. -/
def panicLifetimeUnderflow : String := "attempt to subtract with overflow"

/-- The subscription state (`subscription.rs`), minus the diagnostics handle
(out of scope per spec §1). `Duration` (`f64` milliseconds) and `DateTimeUtc`
are modelled as `Int` milliseconds, `u32`/`u8` as `Nat`, and the
`HashMap<u32, MonitoredItem>` as an association list (iteration order is
unspecified in the source — spec §9 — and is the list order here). -/
structure Subscription where
  subscription_id : Nat
  publishing_interval : Int
  max_lifetime_count : Nat
  max_keep_alive_count : Nat
  priority : Nat
  monitored_items : List (Nat × MonitoredItem)
  state : SubscriptionState
  current_lifetime_count : Nat
  current_keep_alive_count : Nat
  message_sent : Bool
  publishing_enabled : Bool
  resend_data : Bool
  next_sequence_number : Nat
  next_monitored_item_id : Nat
  last_timer_expired_time : Int
deriving DecidableEq, Repr

/-- `Subscription::new` (diagnostics omitted); `chrono::Utc::now()` is passed
in as `now`. -/
def Subscription.new (subscription_id : Nat) (publishing_enabled : Bool)
    (publishing_interval : Int) (lifetime_count : Nat) (keep_alive_count : Nat)
    (priority : Nat) (now : Int) : Subscription where
  subscription_id := subscription_id
  publishing_interval := publishing_interval
  max_lifetime_count := lifetime_count
  max_keep_alive_count := keep_alive_count
  priority := priority
  monitored_items := []
  state := .Creating
  current_lifetime_count := lifetime_count
  current_keep_alive_count := keep_alive_count
  message_sent := false
  publishing_enabled := publishing_enabled
  resend_data := false
  next_sequence_number := 1
  next_monitored_item_id := 1
  last_timer_expired_time := now

/-- `Subscription::set_resend_data`. -/
def Subscription.set_resend_data (s : Subscription) : Subscription :=
  { s with resend_data := true }

/-- `Subscription::reset_keep_alive_counter`. -/
def Subscription.reset_keep_alive_counter (s : Subscription) : Subscription :=
  { s with current_keep_alive_count := s.max_keep_alive_count }

/-- `Subscription::reset_lifetime_counter`. -/
def Subscription.reset_lifetime_counter (s : Subscription) : Subscription :=
  { s with current_lifetime_count := s.max_lifetime_count }

/-- `Subscription::start_publishing_timer`: the unguarded
`current_lifetime_count -= 1`, which fails (checked-subtraction panic) when
the counter is 0. -/
def Subscription.start_publishing_timer (s : Subscription) :
    Except String Subscription :=
  if s.current_lifetime_count = 0 then .error panicLifetimeUnderflow
  else .ok { s with current_lifetime_count := s.current_lifetime_count - 1 }

/-- A notification message: either a `DataChange` payload or a `KeepAlive`
(`NotificationMessage::data_change` / `NotificationMessage::keep_alive`).
The Rust `data_change` constructor stamps `DateTime::now()`; the model uses
the tick's `now` for both kinds, which is the same wall clock. -/
inductive NotificationMessage where
  | data_change (sequence_number : Nat) (publish_time : Int)
      (notifications : List MonitoredItemNotification)
  | keep_alive (sequence_number : Nat) (publish_time : Int)
deriving DecidableEq, Repr

def NotificationMessage.sequence_number : NotificationMessage → Nat
  | .data_change seq _ _ => seq
  | .keep_alive seq _ => seq

/-- Whether a message is a `DataChange`. -/
def NotificationMessage.is_data_change : NotificationMessage → Bool
  | .data_change _ _ _ => true
  | .keep_alive _ _ => false

/-- `Subscription::update_state` (`subscription.rs:419`): the OPC UA Part 4
5.13.1.2 state engine. Arms that fall out of the `if`/`else if` chains reach
the final `UpdateStateResult::new(HandledState::None0, UpdateStateAction::None)`
(the intermediate `match` over {Normal, Late, KeepAlive} in the source only
contains comments). `panic!` is modelled as `Except.error`. -/
def Subscription.update_state (s : Subscription) (tick_reason : TickReason)
    (p : SubscriptionStateParams) :
    Except String (Subscription × UpdateStateResult) :=
  -- This function is called when a publish request is received OR the timer
  -- expired, so getting both is invalid code somewhere
  if tick_reason = .ReceivedPublishRequest ∧ p.publishing_interval_elapsed then
    .error panicSimultaneous
  else
    match s.state with
    | .Closed =>
      -- State #1
      .ok (s, ⟨.Closed1, .None⟩)
    | .Creating =>
      -- State #3
      .ok ({ s with state := .Normal, message_sent := false }, ⟨.Create3, .None⟩)
    | .Normal =>
      if tick_reason = .ReceivedPublishRequest then
        if !s.publishing_enabled || (s.publishing_enabled && !p.more_notifications) then
          -- State #4
          .ok (s, ⟨.Normal4, .None⟩)
        else if s.publishing_enabled && p.more_notifications then
          -- State #5
          .ok ({ s.reset_lifetime_counter with message_sent := true },
               ⟨.Normal5, .ReturnNotifications⟩)
        else
          .ok (s, ⟨.None0, .None⟩)
      else if p.publishing_interval_elapsed then
        if p.publishing_req_queued && s.publishing_enabled && p.notifications_available then
          -- State #6
          match s.reset_lifetime_counter.start_publishing_timer with
          | .error e => .error e
          | .ok s =>
            .ok ({ s with message_sent := true },
                 ⟨.IntervalElapsed6, .ReturnNotifications⟩)
        else if p.publishing_req_queued && !s.message_sent &&
            (!s.publishing_enabled || (s.publishing_enabled && !p.notifications_available)) then
          -- State #7
          match s.reset_lifetime_counter.start_publishing_timer with
          | .error e => .error e
          | .ok s =>
            .ok ({ s with message_sent := true },
                 ⟨.IntervalElapsed7, .ReturnKeepAlive⟩)
        else if !p.publishing_req_queued &&
            (!s.message_sent || (s.publishing_enabled && p.notifications_available)) then
          -- State #8
          match s.start_publishing_timer with
          | .error e => .error e
          | .ok s =>
            .ok ({ s with state := .Late }, ⟨.IntervalElapsed8, .None⟩)
        else if s.message_sent &&
            (!s.publishing_enabled || (s.publishing_enabled && !p.notifications_available)) then
          -- State #9
          match s.start_publishing_timer with
          | .error e => .error e
          | .ok s =>
            .ok ({ s.reset_keep_alive_counter with state := .KeepAlive },
                 ⟨.IntervalElapsed9, .None⟩)
        else
          .ok (s, ⟨.None0, .None⟩)
      else
        .ok (s, ⟨.None0, .None⟩)
    | .Late =>
      if tick_reason = .ReceivedPublishRequest then
        if s.publishing_enabled && (p.notifications_available || p.more_notifications) then
          -- State #10
          .ok ({ s.reset_lifetime_counter with state := .Normal, message_sent := true },
               ⟨.Late10, .ReturnNotifications⟩)
        else if !s.publishing_enabled ||
            (s.publishing_enabled && !p.notifications_available && !p.more_notifications) then
          -- State #11
          .ok ({ s.reset_lifetime_counter with state := .KeepAlive, message_sent := true },
               ⟨.Late11, .ReturnKeepAlive⟩)
        else
          .ok (s, ⟨.None0, .None⟩)
      else if p.publishing_interval_elapsed then
        -- State #12
        match s.start_publishing_timer with
        | .error e => .error e
        | .ok s => .ok (s, ⟨.Late12, .None⟩)
      else
        .ok (s, ⟨.None0, .None⟩)
    | .KeepAlive =>
      if tick_reason = .ReceivedPublishRequest then
        -- State #13
        .ok (s, ⟨.KeepAlive13, .None⟩)
      else if p.publishing_interval_elapsed then
        if s.publishing_enabled && p.notifications_available && p.publishing_req_queued then
          -- State #14
          .ok ({ s with message_sent := true, state := .Normal },
               ⟨.KeepAlive14, .ReturnNotifications⟩)
        else if p.publishing_req_queued && s.current_keep_alive_count = 1 &&
            (!s.publishing_enabled || (s.publishing_enabled && p.notifications_available)) then
          -- State #15
          match s.start_publishing_timer with
          | .error e => .error e
          | .ok s => .ok (s.reset_keep_alive_counter, ⟨.KeepAlive15, .ReturnKeepAlive⟩)
        else if s.current_keep_alive_count > 1 &&
            (!s.publishing_enabled || (s.publishing_enabled && !p.notifications_available)) then
          -- State #16
          match s.start_publishing_timer with
          | .error e => .error e
          | .ok s =>
            .ok ({ s with current_keep_alive_count := s.current_keep_alive_count - 1 },
                 ⟨.KeepAlive16, .None⟩)
        else if !p.publishing_req_queued && (s.current_keep_alive_count = 1 ||
            (s.current_keep_alive_count > 1 && s.publishing_enabled && p.notifications_available)) then
          -- State #17
          match s.start_publishing_timer with
          | .error e => .error e
          | .ok s => .ok ({ s with state := .Late }, ⟨.KeepAlive17, .None⟩)
        else
          .ok (s, ⟨.None0, .None⟩)
      else
        .ok (s, ⟨.None0, .None⟩)

/-- The loop body of `Subscription::tick_monitored_items`: tick every item;
when the publishing interval elapsed, drain each item's pending
notifications. Returns the updated items and the drained notifications. -/
def tickItemsLoop (itemTick : ItemTickFn)
    (publishing_interval_elapsed resend_data : Bool) :
    List (Nat × MonitoredItem) →
      List (Nat × MonitoredItem) × List MonitoredItemNotification
  | [] => ([], [])
  | (id, mi) :: rest =>
    let (mi, _) := itemTick mi publishing_interval_elapsed resend_data
    let (mi, drained) :=
      if publishing_interval_elapsed then
        match mi.all_notification_messages with
        | (some msgs, mi) => (mi, msgs)
        | (none, mi) => (mi, [])
      else (mi, [])
    let (restItems, restMsgs) :=
      tickItemsLoop itemTick publishing_interval_elapsed resend_data rest
    ((id, mi) :: restItems, drained ++ restMsgs)

/-- `Subscription::tick_monitored_items` (`subscription.rs:367`): tick the
items, and if any notifications were drained build one `DataChange` carrying
`next_sequence_number`, then advance the number (wrapping `MAX_U32 → 1`). -/
def Subscription.tick_monitored_items (s : Subscription) (itemTick : ItemTickFn)
    (now : Int) (publishing_interval_elapsed resend_data : Bool) :
    Subscription × Option NotificationMessage × Bool :=
  let (items, notification_messages) :=
    tickItemsLoop itemTick publishing_interval_elapsed resend_data s.monitored_items
  let s := { s with monitored_items := items }
  if notification_messages.isEmpty then
    (s, none, false)
  else
    let nmsg :=
      NotificationMessage.data_change s.next_sequence_number now notification_messages
    let next :=
      if s.next_sequence_number = MAX_U32 then 1 else s.next_sequence_number + 1
    ({ s with next_sequence_number := next }, some nmsg, false)

/-- Lines 278–295 of `Subscription::tick`: "Check if the publishing interval
has elapsed. Only checks on the tick timer." Returns the (possibly
timestamp-updated) subscription and `publishing_interval_elapsed`; the
`panic!` on a non-positive interval is an error. -/
def Subscription.tick_elapsed (s : Subscription) (tick_reason : TickReason)
    (now : Int) : Except String (Subscription × Bool) :=
  match tick_reason with
  | .ReceivedPublishRequest => .ok (s, false)
  | .TickTimerFired =>
    if s.state = .Creating then .ok (s, true)
    else if s.publishing_interval ≤ 0 then .error panicPublishingInterval
    else if now - s.last_timer_expired_time ≥ s.publishing_interval then
      .ok ({ s with last_timer_expired_time := now }, true)
    else .ok (s, false)

/-- Lines 300–307 of `Subscription::tick`: tick the monitored items unless the
state is `Closed` or `Creating`, then clear `resend_data`. -/
def Subscription.tick_item_phase (s : Subscription) (itemTick : ItemTickFn)
    (now : Int) (publishing_interval_elapsed : Bool) :
    Subscription × Option NotificationMessage × Bool :=
  let (s, notification_message, more_notifications) :=
    match s.state with
    | .Closed | .Creating => (s, none, false)
    | _ => s.tick_monitored_items itemTick now publishing_interval_elapsed s.resend_data
  ({ s with resend_data := false }, notification_message, more_notifications)

/-- Lines 312–354 of `Subscription::tick`: when anything happened, run
`update_state` and act on its action — discarding (with sequence-number
rollback), answering with a keep-alive, or returning the notification. -/
def Subscription.tick_dispatch (s : Subscription) (tick_reason : TickReason)
    (publishing_req_queued publishing_interval_elapsed : Bool)
    (notification_message : Option NotificationMessage)
    (more_notifications : Bool) (now : Int) :
    Except String (Subscription × Option NotificationMessage) :=
  let notifications_available := notification_message.isSome
  if notifications_available || publishing_interval_elapsed || publishing_req_queued then
    match s.update_state tick_reason
        ⟨notifications_available, more_notifications,
         publishing_req_queued, publishing_interval_elapsed⟩ with
    | .error e => .error e
    | .ok (s, update_state_result) =>
      match update_state_result.update_state_action with
      | .None =>
        match notification_message with
        | some nm =>
          -- Reset the next sequence number to the discarded notification
          .ok ({ s with next_sequence_number := nm.sequence_number }, none)
        | none => .ok (s, none)
      | .ReturnKeepAlive =>
        let s :=
          match notification_message with
          | some nm =>
            -- Reset the next sequence number to the discarded notification
            { s with next_sequence_number := nm.sequence_number }
          | none => s
        .ok (s, some (.keep_alive s.next_sequence_number now))
      | .ReturnNotifications => .ok (s, notification_message)
  else .ok (s, none)

/-- Lines 357–360 of `Subscription::tick`: "Check if the subscription interval
has been exceeded since last call" — a lifetime count of 1 closes the
subscription. -/
def Subscription.tick_close_check (s : Subscription) : Subscription :=
  if s.current_lifetime_count = 1 then { s with state := .Closed } else s

/-- `Subscription::tick` (`subscription.rs:276`), assembled from its four
blocks. The address space is read-only during a tick and is absorbed into
`itemTick` together with the per-item tick behaviour (see `ItemTickFn`);
`now` is `Int` milliseconds. -/
def Subscription.tick (s : Subscription) (itemTick : ItemTickFn)
    (tick_reason : TickReason) (publishing_req_queued : Bool) (now : Int) :
    Except String (Subscription × Option NotificationMessage) :=
  match s.tick_elapsed tick_reason now with
  | .error e => .error e
  | .ok (s, publishing_interval_elapsed) =>
    match s.tick_item_phase itemTick now publishing_interval_elapsed with
    | (s, notification_message, more_notifications) =>
      match s.tick_dispatch tick_reason publishing_req_queued
          publishing_interval_elapsed notification_message more_notifications now with
      | .error e => .error e
      | .ok (s, result) => .ok (s.tick_close_check, result)

/-- One driver call to `tick`: the item-tick behaviour for this tick (which
absorbs the address space and `now`, see `ItemTickFn`), the reason, whether a
publish request is queued, and the wall clock. -/
structure TickInput where
  itemTick : ItemTickFn
  tick_reason : TickReason
  publishing_req_queued : Bool
  now : Int

/-- Drive a subscription through a list of ticks, collecting each tick's
output; stops at the first panic, as the process would. -/
def runTicks (s : Subscription) :
    List TickInput →
      Except String (Subscription × List (Option NotificationMessage))
  | [] => .ok (s, [])
  | i :: rest =>
    match s.tick i.itemTick i.tick_reason i.publishing_req_queued i.now with
    | .error e => .error e
    | .ok (s', out) =>
      match runTicks s' rest with
      | .error e => .error e
      | .ok (s'', outs) => .ok (s'', out :: outs)

/-! ## Specification vocabulary for the theorems -/

/-- The successor of a sequence number as computed at `subscription.rs:386`:
wrap `MAX_U32 → 1`, never 0. -/
def wrapSucc (n : Nat) : Nat := if n = MAX_U32 then 1 else n + 1

/-- The sequence numbers of the `DataChange` messages among a tick trace's
outputs, in emission order. -/
def dataChangeSeqs (outs : List (Option NotificationMessage)) : List Nat :=
  outs.filterMap (fun o =>
    match o with
    | some (.data_change q _ _) => some q
    | _ => none)

/-- Whether a tick output carries a `DataChange`. -/
def isDataChangeOut (o : Option NotificationMessage) : Bool :=
  match o with
  | some m => m.is_data_change
  | none => false

/-- The strictly-increasing-with-wrap chain of `n` sequence numbers starting
at `a`: `[a, wrapSucc a, wrapSucc (wrapSucc a), …]`. -/
def wrapChain (a : Nat) : Nat → List Nat
  | 0 => []
  | n + 1 => a :: wrapChain (wrapSucc a) n

/-- The lifetime-counter invariant maintained at tick boundaries: the
subscription is closed, or still being created with the counter at its reset
value, or its counter is at least 2 (a counter of 1 is turned into `Closed`
by `tick_close_check` before the next tick). -/
def LifetimeInv (s : Subscription) : Prop :=
  s.state = .Closed ∨
  (s.state = .Creating ∧ s.current_lifetime_count = s.max_lifetime_count ∧
    1 ≤ s.max_lifetime_count) ∨
  (2 ≤ s.current_lifetime_count ∧ 2 ≤ s.max_lifetime_count)

/-! ## Concrete fixtures used by witnesses and counterexamples -/

/-- An item-tick behaviour that changes nothing and reports nothing. -/
def tickNothing : ItemTickFn := fun m _ _ => (m, false)

/-- A monitored item with three pending notifications. -/
def itemThree : MonitoredItem := ⟨1, 7, [⟨7, 42⟩, ⟨7, 43⟩, ⟨7, 44⟩]⟩

/-- A subscription in `Normal` state owning `itemThree`, otherwise as created
by `Subscription::new 1 true 100 30 3 0` at `t = 0`. -/
def subNormal : Subscription :=
  { Subscription.new 1 true 100 30 3 0 0 with
      state := .Normal, monitored_items := [(1, itemThree)] }

/-- An empty session with room for two continuation points. -/
def sessTwo : Session := ⟨[], 1, false, false, 0, 2, [], 0, false⟩

def cpA : BrowseContinuationPoint := ⟨[1], 0, 5⟩
def cpB : BrowseContinuationPoint := ⟨[2], 0, 5⟩
def cpC : BrowseContinuationPoint := ⟨[3], 0, 5⟩

/-- A session holding one continuation point whose snapshot version is 5. -/
def sessStale : Session := ⟨[], 1, false, false, 0, 2, [cpA], 0, false⟩

/-- A session owning one subscription (id 1). -/
def sessWithSub : Session := ⟨[1], 1, false, false, 0, 2, [], 0, false⟩

/-- `itemThree` after its queue has been drained. -/
def itemDrained : MonitoredItem := ⟨1, 7, []⟩

/-- `subNormal` after a timer tick with no publish request queued: the
notification was rolled back (state #8, `Late`). -/
def subLate : Subscription :=
  { subNormal with
      monitored_items := [(1, itemDrained)]
      state := .Late
      current_lifetime_count := 29
      last_timer_expired_time := 100 }

/-- `subNormal` with publishing disabled. -/
def subKAoff : Subscription := { subNormal with publishing_enabled := false }

/-- `subKAoff` after a timer tick with a request queued: the notification was
rolled back and a keep-alive emitted (state #7). -/
def subKAoffPost : Subscription :=
  { subNormal with
      publishing_enabled := false
      monitored_items := [(1, itemDrained)]
      current_lifetime_count := 29
      message_sent := true
      last_timer_expired_time := 100 }

/-- `subNormal` after a timer tick that emitted its `DataChange` (state #6):
one sequence number consumed. -/
def subNormalEmitted : Subscription :=
  { subNormal with
      monitored_items := [(1, itemDrained)]
      current_lifetime_count := 29
      message_sent := true
      next_sequence_number := 2
      last_timer_expired_time := 100 }

/-- The fresh subscription of spec scenario 1: interval 100 ms, lifetime 30,
keep-alive 3, publishing enabled, created at `t = 0`. -/
def subC7 : Subscription := Subscription.new 1 true 100 30 3 0 0

/-- `subC7` after its first timer tick: only Creating → Normal happened. -/
def subC7post : Subscription := { subC7 with state := SubscriptionState.Normal }

/-- A `Normal` subscription one interval away from expiry
(`current_lifetime_count = 2`, first message already sent). -/
def subExpiring : Subscription :=
  { Subscription.new 2 true 100 2 3 0 0 with
      state := .Normal
      message_sent := true }

/-- `subExpiring` after the timer tick that decrements the counter to 1:
`tick` marks it `Closed`. -/
def subExpired : Subscription :=
  { subExpiring with
      state := .Closed
      current_lifetime_count := 1
      last_timer_expired_time := 100 }

/-- A closed subscription. -/
def subClosed : Subscription :=
  { Subscription.new 3 true 100 30 3 0 0 with state := .Closed }

/-- A `Normal` subscription whose publishing interval was never revised up
from 0. -/
def subBadInterval : Subscription :=
  { Subscription.new 4 true 0 30 3 0 0 with state := .Normal }

/-! # Theorems -/

/-- The eviction loop leaves at most `maxPoints - 1` entries. -/
theorem evictExcess_length_le (maxPoints : Nat) (h : 1 ≤ maxPoints)
    (l : List BrowseContinuationPoint) :
    (evictExcess maxPoints l).length ≤ maxPoints - 1 := by
  induction l with
  | nil => simp only [evictExcess, List.length_nil]; omega
  | cons c rest ih =>
    rw [evictExcess]
    split
    · exact ih
    · simp only [List.length_cons]
      omega

/-- The eviction loop only drops entries from the front (the oldest). -/
theorem evictExcess_drop (maxPoints : Nat) (l : List BrowseContinuationPoint) :
    ∃ k, evictExcess maxPoints l = l.drop k := by
  induction l with
  | nil => exact ⟨0, rfl⟩
  | cons c rest ih =>
    rw [evictExcess]
    split
    · obtain ⟨k, hk⟩ := ih
      exact ⟨k + 1, by simpa using hk⟩
    · exact ⟨0, rfl⟩

/-- C8: every `add_browse_continuation_point` first evicts only the oldest
entries (the result keeps a suffix of the old FIFO, with the new point
appended), and the FIFO length never exceeds the configured cap (for any
positive cap); in particular with cap 2, inserting `cpA`, `cpB`, `cpC` in
order leaves `find cpA = none` while `cpB` and `cpC` remain findable. -/
theorem c8_continuation_point_fifo :
    (∀ (s : Session) (cp : BrowseContinuationPoint),
        1 ≤ s.max_browse_continuation_points →
        (s.add_browse_continuation_point cp).browse_continuation_points.length ≤
          s.max_browse_continuation_points) ∧
    (∀ (s : Session) (cp : BrowseContinuationPoint),
        ∃ k, (s.add_browse_continuation_point cp).browse_continuation_points =
          s.browse_continuation_points.drop k ++ [cp]) ∧
    ((((sessTwo.add_browse_continuation_point cpA).add_browse_continuation_point
          cpB).add_browse_continuation_point cpC).find_browse_continuation_point
        [1] = none ∧
      (((sessTwo.add_browse_continuation_point cpA).add_browse_continuation_point
          cpB).add_browse_continuation_point cpC).find_browse_continuation_point
        [2] = some cpB ∧
      (((sessTwo.add_browse_continuation_point cpA).add_browse_continuation_point
          cpB).add_browse_continuation_point cpC).find_browse_continuation_point
        [3] = some cpC) := by
  refine ⟨?_, ?_, by decide, by decide, by decide⟩
  · intro s cp h
    have := evictExcess_length_le s.max_browse_continuation_points h
      s.browse_continuation_points
    simp only [Session.add_browse_continuation_point, List.length_append,
      List.length_singleton]
    omega
  · intro s cp
    obtain ⟨k, hk⟩ := evictExcess_drop s.max_browse_continuation_points
      s.browse_continuation_points
    exact ⟨k, by simp [Session.add_browse_continuation_point, hk]⟩

/-- C8 witness: the universally quantified parts applied to `sessTwo`/`cpA`. -/
theorem c8_continuation_point_fifo_witness :
    (sessTwo.add_browse_continuation_point cpA).browse_continuation_points.length ≤
      sessTwo.max_browse_continuation_points ∧
    (∃ k, (sessTwo.add_browse_continuation_point cpA).browse_continuation_points =
      sessTwo.browse_continuation_points.drop k ++ [cpA]) :=
  ⟨c8_continuation_point_fifo.1 sessTwo cpA (by decide),
   c8_continuation_point_fifo.2.1 sessTwo cpA⟩

/-- C9: at the failing input, `find_browse_continuation_point` returns an
entry whose stored snapshot version (5) is older than the current
address-space version (6): the lookup performs no validity check, contrary to
the claim and to the function's own documentation. -/
theorem c9_find_returns_stale_point :
    sessStale.find_browse_continuation_point [1] = some cpA ∧
    cpA.address_space_version = 5 ∧
    cpA.is_valid_browse_continuation_point 6 = false := by
  decide

/-- C10 counterexample: `set_terminated` does not drop the session's
subscriptions — a session owning subscription 1 still owns it afterwards. -/
theorem c10_cex_subscriptions_not_dropped :
    (sessWithSub.set_terminated 42).subscriptions = [1] ∧
    ((1 : Nat) :: []) ≠ ([] : List Nat) := by
  decide

/-- `start_publishing_timer` succeeds exactly on a non-zero counter,
decrementing it. -/
theorem start_publishing_timer_eq_ok {s t : Subscription} :
    s.start_publishing_timer = .ok t ↔
      ¬s.current_lifetime_count = 0 ∧
        t = { s with current_lifetime_count := s.current_lifetime_count - 1 } := by
  unfold Subscription.start_publishing_timer
  split <;> rename_i h <;> simp [h, eq_comm]

/-- `start_publishing_timer` fails exactly on a zero counter. -/
theorem start_publishing_timer_eq_error {s : Subscription} {e : String} :
    s.start_publishing_timer = .error e ↔
      s.current_lifetime_count = 0 ∧ e = panicLifetimeUnderflow := by
  unfold Subscription.start_publishing_timer
  split <;> rename_i h <;> simp [h, eq_comm]

/-- `update_state` never touches the sequence number, the monitored items,
the reset values, the interval, the timer timestamp, `resend_data` or
`publishing_enabled`. -/
theorem update_state_preserves {s s' : Subscription} {r : TickReason}
    {p : SubscriptionStateParams} {ur : UpdateStateResult}
    (h : s.update_state r p = .ok (s', ur)) :
    s'.next_sequence_number = s.next_sequence_number ∧
    s'.monitored_items = s.monitored_items ∧
    s'.max_lifetime_count = s.max_lifetime_count ∧
    s'.max_keep_alive_count = s.max_keep_alive_count ∧
    s'.publishing_interval = s.publishing_interval ∧
    s'.last_timer_expired_time = s.last_timer_expired_time ∧
    s'.resend_data = s.resend_data ∧
    s'.publishing_enabled = s.publishing_enabled := by
  unfold Subscription.update_state at h
  repeat' split at h
  all_goals simp_all [start_publishing_timer_eq_ok,
    Subscription.reset_lifetime_counter, Subscription.reset_keep_alive_counter]
  all_goals obtain ⟨h1, h2⟩ := h
  all_goals subst h1
  all_goals simp_all

/-- On a closed subscription `update_state` does nothing and acts `None`
(state #1). -/
theorem update_state_closed {s s' : Subscription} {r : TickReason}
    {p : SubscriptionStateParams} {ur : UpdateStateResult}
    (hc : s.state = .Closed) (h : s.update_state r p = .ok (s', ur)) :
    s' = s ∧ ur = ⟨.Closed1, .None⟩ := by
  unfold Subscription.update_state at h
  split at h
  · exact absurd h (by simp)
  · rw [hc] at h
    simp only [Except.ok.injEq, Prod.mk.injEq] at h
    exact ⟨h.1.symm, h.2.symm⟩

/-- On a publish request with the interval not elapsed, `update_state` never
panics: no `ReceivedPublishRequest` arm decrements the lifetime counter. -/
theorem update_state_rpr_total (s : Subscription) (p : SubscriptionStateParams)
    (he : p.publishing_interval_elapsed = false) :
    ∃ s' ur, s.update_state .ReceivedPublishRequest p = .ok (s', ur) := by
  unfold Subscription.update_state
  rw [if_neg (by simp [he])]
  cases hs : s.state <;> dsimp only <;>
    first
      | exact ⟨_, _, rfl⟩
      | (split_ifs <;> first | exact ⟨_, _, rfl⟩ | simp_all)

set_option maxHeartbeats 1600000 in
/-- Under the lifetime invariant (and with the driver contract respected),
`update_state` never fails — in particular the lifetime decrement never
underflows. -/
theorem update_state_no_error (s : Subscription) (r : TickReason)
    (p : SubscriptionStateParams)
    (hr : ¬(r = .ReceivedPublishRequest ∧ p.publishing_interval_elapsed = true))
    (hinv : LifetimeInv s) :
    ∀ e, ¬s.update_state r p = .error e := by
  intro e h
  rcases hinv with h1 | ⟨h1, h2, h3⟩ | ⟨h1, h2⟩ <;>
  · unfold Subscription.update_state at h
    repeat' split at h
    all_goals simp_all [start_publishing_timer_eq_error, start_publishing_timer_eq_ok,
      Subscription.reset_lifetime_counter, Subscription.reset_keep_alive_counter]

set_option maxHeartbeats 1600000 in
/-- Under the lifetime invariant, a successful `update_state` keeps the reset
value and leaves the counter positive (with the counter only reaching 2 or
more when the reset value allows re-establishing the invariant). -/
theorem update_state_lifetime_post {s s' : Subscription} {r : TickReason}
    {p : SubscriptionStateParams} {ur : UpdateStateResult}
    (hr : ¬(r = .ReceivedPublishRequest ∧ p.publishing_interval_elapsed = true))
    (hinv : LifetimeInv s) (h : s.update_state r p = .ok (s', ur)) :
    s'.state = .Closed ∨
      (1 ≤ s'.current_lifetime_count ∧
        (2 ≤ s'.current_lifetime_count → 2 ≤ s'.max_lifetime_count)) := by
  rcases hinv with h1 | ⟨h1, h2, h3⟩ | ⟨h1, h2⟩ <;>
  · unfold Subscription.update_state at h
    repeat' split at h
    all_goals simp_all [start_publishing_timer_eq_ok,
      Subscription.reset_lifetime_counter, Subscription.reset_keep_alive_counter]
    all_goals obtain ⟨g1, g2⟩ := h
    all_goals subst g1
    all_goals try simp_all
    all_goals omega

/-- C10 (amended): `set_terminated` sets `terminated := true` and
`terminated_at := now`, afterwards `terminated()` returns true, and it leaves
the subscriptions (and continuation points) untouched. -/
theorem c10_set_terminated :
    ∀ (s : Session) (now : Int),
      (s.set_terminated now).terminated = true ∧
      (s.set_terminated now).terminated_at = now ∧
      (s.set_terminated now).terminated_fn = true ∧
      (s.set_terminated now).subscriptions = s.subscriptions ∧
      (s.set_terminated now).browse_continuation_points =
        s.browse_continuation_points :=
  fun _ _ => ⟨rfl, rfl, rfl, rfl, rfl⟩

/-- A successful interval check only (possibly) updates the timer
timestamp. -/
theorem tick_elapsed_ok {s s' : Subscription} {r : TickReason} {now : Int}
    {e : Bool} (h : s.tick_elapsed r now = .ok (s', e)) :
    ∃ lt, s' = { s with last_timer_expired_time := lt } := by
  unfold Subscription.tick_elapsed at h
  repeat' split at h
  all_goals simp only [Except.ok.injEq, Prod.mk.injEq, reduceCtorEq] at h
  all_goals obtain ⟨h1, h2⟩ := h
  all_goals subst h1
  all_goals exact ⟨_, rfl⟩

/-- On a publish request the interval check does nothing and reports the
interval as not elapsed. -/
theorem tick_elapsed_rpr (s : Subscription) (now : Int) :
    s.tick_elapsed .ReceivedPublishRequest now = .ok (s, false) := rfl

/-- The interval check can only fail with the revised-interval panic. -/
theorem tick_elapsed_error {s : Subscription} {r : TickReason} {now : Int}
    {m : String} (h : s.tick_elapsed r now = .error m) :
    m = panicPublishingInterval := by
  unfold Subscription.tick_elapsed at h
  repeat' split at h
  all_goals simp_all

/-- A timer tick on a non-`Creating` subscription with a non-positive
publishing interval panics. -/
theorem tick_elapsed_bad_interval {s : Subscription} {now : Int}
    (hs : ¬s.state = .Creating) (hp : s.publishing_interval ≤ 0) :
    s.tick_elapsed .TickTimerFired now = .error panicPublishingInterval := by
  unfold Subscription.tick_elapsed
  rw [if_neg hs, if_pos hp]

/-- Without an elapsed publishing interval the item loop drains nothing. -/
theorem tickItemsLoop_not_elapsed (f : ItemTickFn) (rd : Bool)
    (l : List (Nat × MonitoredItem)) :
    (tickItemsLoop f false rd l).2 = [] := by
  induction l with
  | nil => rfl
  | cons kv rest ih =>
    obtain ⟨id, mi⟩ := kv
    simp [tickItemsLoop, ih]

/-- `tick_monitored_items` either reports nothing (sequence number untouched)
or builds one `DataChange` carrying the current sequence number and advances
it with wrap; `more_notifications` is always `false`. -/
theorem tick_monitored_items_spec (s : Subscription) (f : ItemTickFn)
    (now : Int) (e rd : Bool) :
    (∃ items, s.tick_monitored_items f now e rd =
        ({ s with monitored_items := items }, none, false)) ∨
    (∃ items msgs, s.tick_monitored_items f now e rd =
        ({ s with monitored_items := items, next_sequence_number := wrapSucc s.next_sequence_number },
         some (.data_change s.next_sequence_number now msgs), false)) := by
  unfold Subscription.tick_monitored_items
  rcases hl : tickItemsLoop f e rd s.monitored_items with ⟨items, msgs⟩
  by_cases hm : msgs.isEmpty
  · left
    exact ⟨items, by simp [hl, hm]⟩
  · right
    exact ⟨items, msgs, by simp [hl, hm, wrapSucc]⟩

/-- With the interval not elapsed, `tick_monitored_items` reports nothing. -/
theorem tick_monitored_items_not_elapsed (s : Subscription) (f : ItemTickFn)
    (now : Int) (rd : Bool) :
    ∃ items, s.tick_monitored_items f now false rd =
      ({ s with monitored_items := items }, none, false) := by
  unfold Subscription.tick_monitored_items
  rcases hl : tickItemsLoop f false rd s.monitored_items with ⟨items, msgs⟩
  have : msgs = [] := by
    have := tickItemsLoop_not_elapsed f rd s.monitored_items
    rw [hl] at this
    exact this
  subst this
  exact ⟨items, by simp⟩

/-- The item phase either reports nothing (sequence number untouched) or
builds one `DataChange` carrying the current sequence number and advancing
it; besides the items it only clears `resend_data`. -/
theorem tick_item_phase_spec (s : Subscription) (f : ItemTickFn) (now : Int)
    (e : Bool) :
    (∃ items, s.tick_item_phase f now e =
        ({ s with monitored_items := items, resend_data := false },
         none, false)) ∨
    (∃ items msgs, s.tick_item_phase f now e =
        ({ s with monitored_items := items, resend_data := false, next_sequence_number := wrapSucc s.next_sequence_number },
         some (.data_change s.next_sequence_number now msgs), false)) := by
  unfold Subscription.tick_item_phase
  cases hs : s.state
  case Closed => exact .inl ⟨s.monitored_items, by simp [hs]⟩
  case Creating => exact .inl ⟨s.monitored_items, by simp [hs]⟩
  all_goals
  · rcases tick_monitored_items_spec s f now e s.resend_data with
      ⟨items, hteq⟩ | ⟨items, msgs, hteq⟩
    · exact .inl ⟨items, by simp [hs, hteq]⟩
    · exact .inr ⟨items, msgs, by simp [hs, hteq]⟩

/-- With the interval not elapsed, the item phase reports nothing. -/
theorem tick_item_phase_not_elapsed (s : Subscription) (f : ItemTickFn)
    (now : Int) :
    ∃ items, s.tick_item_phase f now false =
      ({ s with monitored_items := items, resend_data := false },
       none, false) := by
  unfold Subscription.tick_item_phase
  cases hs : s.state
  case Closed => exact ⟨s.monitored_items, by simp [hs]⟩
  case Creating => exact ⟨s.monitored_items, by simp [hs]⟩
  all_goals
  · obtain ⟨items, hteq⟩ := tick_monitored_items_not_elapsed s f now s.resend_data
    exact ⟨items, by simp [hs, hteq]⟩

/-- The item phase on a closed subscription only clears `resend_data`. -/
theorem tick_item_phase_closed (s : Subscription) (f : ItemTickFn) (now : Int)
    (e : Bool) (hs : s.state = .Closed) :
    s.tick_item_phase f now e = ({ s with resend_data := false }, none, false) := by
  unfold Subscription.tick_item_phase
  simp [hs]

/-- The close check only (possibly) sets the state to `Closed`. -/
theorem tick_close_check_spec (s : Subscription) :
    s.tick_close_check = s ∨ s.tick_close_check = { s with state := .Closed } := by
  unfold Subscription.tick_close_check
  split
  · exact .inr rfl
  · exact .inl rfl

/-- A lifetime count of 1 after the close check implies `Closed`. -/
theorem tick_close_check_closes (s : Subscription)
    (h : s.tick_close_check.current_lifetime_count = 1) :
    s.tick_close_check.state = .Closed := by
  unfold Subscription.tick_close_check at h ⊢
  by_cases hc : s.current_lifetime_count = 1
  · simp [hc]
  · rw [if_neg hc] at h
    exact absurd h hc

/-- Sequence-number bookkeeping of the dispatch phase: the output is either
the notification itself (sequence number untouched), or nothing / a
keep-alive, in which case a pending notification's sequence number is rolled
back into `next_sequence_number` and a keep-alive carries exactly that
number. -/
theorem tick_dispatch_spec {s s' : Subscription} {r : TickReason} {q e : Bool}
    {nm : Option NotificationMessage} {more : Bool} {now : Int}
    {out : Option NotificationMessage}
    (h : s.tick_dispatch r q e nm more now = .ok (s', out)) :
    (out = nm ∧ s'.next_sequence_number = s.next_sequence_number) ∨
    (out = none ∧ ∃ m, nm = some m ∧
      s'.next_sequence_number = m.sequence_number) ∨
    (∃ t, out = some (.keep_alive s'.next_sequence_number t) ∧
      ((nm = none ∧ s'.next_sequence_number = s.next_sequence_number) ∨
       (∃ m, nm = some m ∧ s'.next_sequence_number = m.sequence_number))) := by
  unfold Subscription.tick_dispatch at h
  cases nm with
  | none =>
    dsimp only at h
    split at h
    · split at h
      · exact absurd h (by simp)
      · rename_i s2 ur heq
        have hseq := (update_state_preserves heq).1
        split at h
        all_goals simp only [Except.ok.injEq, Prod.mk.injEq] at h
        all_goals obtain ⟨h1, h2⟩ := h
        all_goals subst h1
        all_goals subst h2
        · exact .inl ⟨rfl, hseq⟩
        · exact .inr (.inr ⟨now, rfl, .inl ⟨rfl, hseq⟩⟩)
        · exact .inl ⟨rfl, hseq⟩
    · simp only [Except.ok.injEq, Prod.mk.injEq] at h
      obtain ⟨h1, h2⟩ := h
      subst h1
      subst h2
      exact .inl ⟨rfl, rfl⟩
  | some nmm =>
    dsimp only at h
    split at h
    · split at h
      · exact absurd h (by simp)
      · rename_i s2 ur heq
        have hseq := (update_state_preserves heq).1
        split at h
        all_goals simp only [Except.ok.injEq, Prod.mk.injEq] at h
        all_goals obtain ⟨h1, h2⟩ := h
        all_goals subst h1
        all_goals subst h2
        · exact .inr (.inl ⟨rfl, nmm, rfl, rfl⟩)
        · exact .inr (.inr ⟨now, rfl, .inr ⟨nmm, rfl, rfl⟩⟩)
        · exact .inl ⟨rfl, hseq⟩
    · rename_i hg
      simp at hg

/-- The close check leaves the sequence number alone. -/
theorem tick_close_check_next (s : Subscription) :
    s.tick_close_check.next_sequence_number = s.next_sequence_number := by
  unfold Subscription.tick_close_check
  split <;> rfl

/-- The close check leaves the lifetime counter alone. -/
theorem tick_close_check_count (s : Subscription) :
    s.tick_close_check.current_lifetime_count = s.current_lifetime_count := by
  unfold Subscription.tick_close_check
  split <;> rfl

/-- Sequence-number bookkeeping of one whole `tick`: an emitted `DataChange`
carries the pre-tick `next_sequence_number` and advances it by exactly one
(with wrap); a silent tick or an emitted keep-alive leaves it unchanged, the
keep-alive carrying exactly the unconsumed number. -/
theorem tick_seq_spec {s s' : Subscription} {f : ItemTickFn} {r : TickReason}
    {q : Bool} {now : Int} {out : Option NotificationMessage}
    (h : s.tick f r q now = .ok (s', out)) :
    (out = none → s'.next_sequence_number = s.next_sequence_number) ∧
    (∀ k t, out = some (.keep_alive k t) →
        s'.next_sequence_number = s.next_sequence_number ∧
        k = s.next_sequence_number) ∧
    (∀ seq t ns, out = some (.data_change seq t ns) →
        seq = s.next_sequence_number ∧
        s'.next_sequence_number = wrapSucc s.next_sequence_number) := by
  unfold Subscription.tick at h
  split at h
  · exact absurd h (by simp)
  · rename_i s1 e1 heq1
    obtain ⟨lt, rfl⟩ := tick_elapsed_ok heq1
    rcases tick_item_phase_spec { s with last_timer_expired_time := lt } f now e1
      with ⟨items, hip⟩ | ⟨items, msgs, hip⟩
    · -- no notification built: the sequence number was never advanced
      rw [hip] at h
      dsimp only at h
      split at h
      · exact absurd h (by simp)
      · rename_i s3 res heq3
        simp only [Except.ok.injEq, Prod.mk.injEq] at h
        obtain ⟨h1, h2⟩ := h
        subst h1
        subst h2
        have hnext3 := tick_close_check_next s3
        rcases tick_dispatch_spec heq3 with
          ⟨hout, hseq3⟩ | ⟨hout, m, hm, hseq3⟩ | ⟨t0, hout, hrest⟩
        · refine ⟨fun _ => ?_, fun k t hk => ?_, fun seq t ns hdc => ?_⟩
          · rw [hnext3, hseq3]
          · rw [hout] at hk
            simp at hk
          · rw [hout] at hdc
            simp at hdc
        · simp at hm
        · rcases hrest with ⟨_, hseq3⟩ | ⟨m, hm, _⟩
          · refine ⟨fun hnone => ?_, fun k t hk => ?_, fun seq t ns hdc => ?_⟩
            · rw [hout] at hnone
              simp at hnone
            · rw [hout] at hk
              simp only [Option.some.injEq, NotificationMessage.keep_alive.injEq] at hk
              constructor
              · rw [hnext3, hseq3]
              · rw [← hk.1, hseq3]
            · rw [hout] at hdc
              simp at hdc
          · simp at hm
    · -- a DataChange was built with the pre-tick sequence number
      rw [hip] at h
      dsimp only at h
      split at h
      · exact absurd h (by simp)
      · rename_i s3 res heq3
        simp only [Except.ok.injEq, Prod.mk.injEq] at h
        obtain ⟨h1, h2⟩ := h
        subst h1
        subst h2
        have hnext3 := tick_close_check_next s3
        rcases tick_dispatch_spec heq3 with
          ⟨hout, hseq3⟩ | ⟨hout, m, hm, hseq3⟩ | ⟨t0, hout, hrest⟩
        · refine ⟨fun hnone => ?_, fun k t hk => ?_, fun seq t ns hdc => ?_⟩
          · rw [hout] at hnone
            simp at hnone
          · rw [hout] at hk
            simp at hk
          · rw [hout] at hdc
            simp only [Option.some.injEq, NotificationMessage.data_change.injEq] at hdc
            exact ⟨hdc.1.symm, by rw [hnext3, hseq3]⟩
        · simp only [Option.some.injEq] at hm
          subst hm
          refine ⟨fun _ => ?_, fun k t hk => ?_, fun seq t ns hdc => ?_⟩
          · rw [hnext3, hseq3]
            rfl
          · rw [hout] at hk
            simp at hk
          · rw [hout] at hdc
            simp at hdc
        · rcases hrest with ⟨hm, _⟩ | ⟨m, hm, hseq3⟩
          · simp at hm
          · simp only [Option.some.injEq] at hm
            subst hm
            refine ⟨fun hnone => ?_, fun k t hk => ?_, fun seq t ns hdc => ?_⟩
            · rw [hout] at hnone
              simp at hnone
            · rw [hout] at hk
              simp only [Option.some.injEq, NotificationMessage.keep_alive.injEq] at hk
              constructor
              · rw [hnext3, hseq3]
                rfl
              · rw [← hk.1, hseq3]
                rfl
            · rw [hout] at hdc
              simp at hdc

theorem wrapChain_length (a n : Nat) : (wrapChain a n).length = n := by
  induction n generalizing a with
  | zero => rfl
  | succ n ih => simp [wrapChain, ih]

theorem dataChangeSeqs_nil : dataChangeSeqs [] = [] := rfl

theorem dataChangeSeqs_cons_none (l : List (Option NotificationMessage)) :
    dataChangeSeqs (none :: l) = dataChangeSeqs l := rfl

theorem dataChangeSeqs_cons_keep_alive (k : Nat) (t : Int)
    (l : List (Option NotificationMessage)) :
    dataChangeSeqs (some (.keep_alive k t) :: l) = dataChangeSeqs l := rfl

theorem dataChangeSeqs_cons_data_change (q : Nat) (t : Int)
    (ns : List MonitoredItemNotification)
    (l : List (Option NotificationMessage)) :
    dataChangeSeqs (some (.data_change q t ns) :: l) = q :: dataChangeSeqs l :=
  rfl

/-- Over a whole tick trace, the emitted `DataChange` sequence numbers form
the wrap-chain starting at the initial `next_sequence_number`, and the final
counter has advanced by exactly the number of emitted `DataChange`s. -/
theorem runTicks_seq_spec {s s' : Subscription} {ins : List TickInput}
    {outs : List (Option NotificationMessage)}
    (h : runTicks s ins = .ok (s', outs)) :
    dataChangeSeqs outs =
        wrapChain s.next_sequence_number (dataChangeSeqs outs).length ∧
      s'.next_sequence_number =
        wrapSucc^[(dataChangeSeqs outs).length] s.next_sequence_number := by
  induction ins generalizing s outs with
  | nil =>
    unfold runTicks at h
    simp only [Except.ok.injEq, Prod.mk.injEq] at h
    obtain ⟨h1, h2⟩ := h
    subst h1
    subst h2
    exact ⟨rfl, rfl⟩
  | cons i rest ih =>
    unfold runTicks at h
    split at h
    · exact absurd h (by simp)
    · rename_i s1 out1 heq1
      split at h
      · exact absurd h (by simp)
      · rename_i s2 outs2 heq2
        simp only [Except.ok.injEq, Prod.mk.injEq] at h
        obtain ⟨h1, h2⟩ := h
        subst h1
        subst h2
        have hspec := tick_seq_spec heq1
        have hih := ih heq2
        cases out1 with
        | none =>
          rw [dataChangeSeqs_cons_none]
          rw [hspec.1 rfl] at hih
          exact hih
        | some msg =>
          cases msg with
          | keep_alive k t =>
            rw [dataChangeSeqs_cons_keep_alive]
            rw [(hspec.2.1 k t rfl).1] at hih
            exact hih
          | data_change q t ns =>
            obtain ⟨hq, hnext⟩ := hspec.2.2 q t ns rfl
            rw [dataChangeSeqs_cons_data_change]
            rw [hnext] at hih
            subst hq
            constructor
            · rw [List.length_cons, wrapChain, hih.1, wrapChain_length]
            · rw [List.length_cons, Function.iterate_succ_apply]
              exact hih.2

theorem wrapSucc_pos (n : Nat) : 1 ≤ wrapSucc n := by
  unfold wrapSucc
  split <;> omega

theorem wrapChain_pos (a n : Nat) (ha : 1 ≤ a) :
    ∀ x ∈ wrapChain a n, 1 ≤ x := by
  induction n generalizing a with
  | zero => simp [wrapChain]
  | succ n ih =>
    intro x hx
    rw [wrapChain] at hx
    rcases List.mem_cons.1 hx with rfl | hx
    · exact ha
    · exact ih (wrapSucc a) (wrapSucc_pos a) x hx

theorem dataChangeSeqs_eq_nil {l : List (Option NotificationMessage)}
    (h : ∀ o ∈ l, isDataChangeOut o = false) : dataChangeSeqs l = [] := by
  induction l with
  | nil => rfl
  | cons o rest ih =>
    have ho := h o (List.mem_cons_self o rest)
    have hrest := ih (fun o' ho' => h o' (List.mem_cons_of_mem _ ho'))
    cases o with
    | none => rw [dataChangeSeqs_cons_none]; exact hrest
    | some m =>
      cases m with
      | data_change q t ns =>
        simp [isDataChangeOut, NotificationMessage.is_data_change] at ho
      | keep_alive k t =>
        rw [dataChangeSeqs_cons_keep_alive]; exact hrest

/-- C1: a tick that built a `DataChange` but returns nothing or a keep-alive
leaves `next_sequence_number` where it was (the rollback restores the
discarded message's number, which equals the pre-tick counter); a returned
keep-alive carries exactly that number; and the next `DataChange` emitted
after any run of non-`DataChange` ticks carries exactly that same number. -/
theorem c1_rollback_reuses_sequence_number :
    (∀ (s : Subscription) (f : ItemTickFn) (r : TickReason) (q : Bool)
        (now : Int) (s' : Subscription),
        s.tick f r q now = .ok (s', none) →
        s'.next_sequence_number = s.next_sequence_number) ∧
    (∀ (s : Subscription) (f : ItemTickFn) (r : TickReason) (q : Bool)
        (now : Int) (s' : Subscription) (k : Nat) (t : Int),
        s.tick f r q now = .ok (s', some (.keep_alive k t)) →
        s'.next_sequence_number = s.next_sequence_number ∧
        k = s.next_sequence_number) ∧
    (∀ (s : Subscription) (ins : List TickInput) (s' : Subscription)
        (pre : List (Option NotificationMessage)) (seq : Nat) (t : Int)
        (ns : List MonitoredItemNotification),
        runTicks s ins = .ok (s', pre ++ [some (.data_change seq t ns)]) →
        (∀ o ∈ pre, isDataChangeOut o = false) →
        seq = s.next_sequence_number) := by
  refine ⟨fun s f r q now s' h => (tick_seq_spec h).1 rfl,
          fun s f r q now s' k t h => (tick_seq_spec h).2.1 k t rfl,
          fun s ins s' pre seq t ns h hnd => ?_⟩
  obtain ⟨hchain, _⟩ := runTicks_seq_spec h
  have hpre : dataChangeSeqs pre = [] := dataChangeSeqs_eq_nil hnd
  have hone : dataChangeSeqs (pre ++ [some (.data_change seq t ns)]) = [seq] := by
    unfold dataChangeSeqs at hpre ⊢
    rw [List.filterMap_append, hpre]
    rfl
  rw [hone] at hchain
  simpa [wrapChain] using hchain

/-- C2: along any panic-free tick trace starting from a positive sequence
counter, the emitted `DataChange` sequence numbers are strictly increasing
with step 1 (wrapping `MAX_U32 → 1` via `wrapSucc`), never 0, and the counter
advances by exactly one per emitted `DataChange` — keep-alives and silent
ticks consume none. -/
theorem c2_sequence_numbers_strictly_increase :
    ∀ (s : Subscription) (ins : List TickInput) (s' : Subscription)
      (outs : List (Option NotificationMessage)),
      runTicks s ins = .ok (s', outs) →
      1 ≤ s.next_sequence_number →
      dataChangeSeqs outs =
          wrapChain s.next_sequence_number (dataChangeSeqs outs).length ∧
        (∀ x ∈ dataChangeSeqs outs, 1 ≤ x) ∧
        s'.next_sequence_number =
          wrapSucc^[(dataChangeSeqs outs).length] s.next_sequence_number := by
  intro s ins s' outs h h1
  obtain ⟨hchain, hiter⟩ := runTicks_seq_spec h
  exact ⟨hchain,
    fun x hx => wrapChain_pos _ _ h1 x (hchain ▸ hx),
    hiter⟩

/-- With no notification built and the interval not elapsed, the dispatch
phase answers a publish request with nothing or a keep-alive and cannot
panic. -/
theorem tick_dispatch_rpr_none (s : Subscription) (q : Bool) (now : Int) :
    ∃ s' out,
      s.tick_dispatch .ReceivedPublishRequest q false none false now =
        .ok (s', out) ∧
      (out = none ∨ ∃ k t, out = some (.keep_alive k t)) := by
  unfold Subscription.tick_dispatch
  simp only [Option.isSome_none, Bool.false_or]
  by_cases hq : q = true
  · rw [if_pos hq]
    obtain ⟨s2, ur, hu⟩ := update_state_rpr_total s ⟨false, false, q, false⟩ rfl
    rw [hu]
    obtain ⟨hsid, act⟩ := ur
    dsimp only
    cases act
    · exact ⟨s2, none, rfl, .inl rfl⟩
    · exact ⟨s2, some (.keep_alive s2.next_sequence_number now), rfl,
        .inr ⟨s2.next_sequence_number, now, rfl⟩⟩
    · exact ⟨s2, none, rfl, .inl rfl⟩
  · rw [if_neg hq]
    exact ⟨s, none, rfl, .inl rfl⟩

/-- C3: a tick triggered by `ReceivedPublishRequest` forces
`publishing_interval_elapsed = false`, so no item queue is drained: whatever
the subscription state, the queued requests, the pending item notifications
and the item behaviour, such a tick succeeds and returns either nothing or a
keep-alive — never a `DataChange`. -/
theorem c3_publish_request_never_emits_data_change :
    ∀ (s : Subscription) (f : ItemTickFn) (q : Bool) (now : Int),
      ∃ s' out,
        s.tick f .ReceivedPublishRequest q now = .ok (s', out) ∧
        (out = none ∨ ∃ k t, out = some (.keep_alive k t)) := by
  intro s f q now
  unfold Subscription.tick
  rw [tick_elapsed_rpr]
  dsimp only
  obtain ⟨items, hip⟩ := tick_item_phase_not_elapsed s f now
  rw [hip]
  dsimp only
  obtain ⟨s', out, hd, hshape⟩ :=
    tick_dispatch_rpr_none
      { s with monitored_items := items, resend_data := false } q now
  rw [hd]
  exact ⟨_, out, rfl, hshape⟩

/-- The dispatch phase on a closed subscription (with no notification built)
keeps the state `Closed` and emits nothing. -/
theorem tick_dispatch_closed {s s' : Subscription} {r : TickReason}
    {q e more : Bool} {now : Int} {out : Option NotificationMessage}
    (h : s.tick_dispatch r q e none more now = .ok (s', out))
    (hc : s.state = .Closed) :
    s'.state = .Closed ∧ out = none := by
  unfold Subscription.tick_dispatch at h
  dsimp only at h
  split at h
  · split at h
    · exact absurd h (by simp)
    · rename_i s2 ur heq
      obtain ⟨hs2, hur⟩ := update_state_closed hc heq
      subst hs2
      subst hur
      dsimp only at h
      simp only [Except.ok.injEq, Prod.mk.injEq] at h
      obtain ⟨h1, h2⟩ := h
      subst h1
      subst h2
      exact ⟨hc, rfl⟩
  · simp only [Except.ok.injEq, Prod.mk.injEq] at h
    obtain ⟨h1, h2⟩ := h
    subst h1
    subst h2
    exact ⟨hc, rfl⟩

/-- A closed subscription stays closed through the close check. -/
theorem tick_close_check_state_closed {s : Subscription}
    (h : s.state = .Closed) : s.tick_close_check.state = .Closed := by
  unfold Subscription.tick_close_check
  split
  · rfl
  · exact h

/-- C4: at the end of every successful tick a lifetime count of 1 means the
state is `Closed`; and `Closed` is terminal — a further tick keeps the state
`Closed` and returns no message, and `update_state` on a closed subscription
changes nothing and acts `None`. -/
theorem c4_lifetime_one_closes_and_closed_is_terminal :
    (∀ (s : Subscription) (f : ItemTickFn) (r : TickReason) (q : Bool)
        (now : Int) (s' : Subscription) (out : Option NotificationMessage),
        s.tick f r q now = .ok (s', out) →
        s'.current_lifetime_count = 1 → s'.state = .Closed) ∧
    (∀ (s : Subscription) (f : ItemTickFn) (r : TickReason) (q : Bool)
        (now : Int) (s' : Subscription) (out : Option NotificationMessage),
        s.state = .Closed → s.tick f r q now = .ok (s', out) →
        s'.state = .Closed ∧ out = none) ∧
    (∀ (s : Subscription) (r : TickReason) (p : SubscriptionStateParams)
        (s' : Subscription) (ur : UpdateStateResult),
        s.state = .Closed → s.update_state r p = .ok (s', ur) →
        s'.state = .Closed ∧ ur.update_state_action = .None) := by
  refine ⟨?_, ?_, ?_⟩
  · intro s f r q now s' out h hcount
    unfold Subscription.tick at h
    split at h
    · exact absurd h (by simp)
    · rename_i s1 e1 heq1
      rcases hip : s1.tick_item_phase f now e1 with ⟨s2, nm, more⟩
      rw [hip] at h
      dsimp only at h
      split at h
      · exact absurd h (by simp)
      · rename_i s3 res heq3
        simp only [Except.ok.injEq, Prod.mk.injEq] at h
        obtain ⟨h1, h2⟩ := h
        subst h1
        exact tick_close_check_closes s3 hcount
  · intro s f r q now s' out hc h
    unfold Subscription.tick at h
    split at h
    · exact absurd h (by simp)
    · rename_i s1 e1 heq1
      obtain ⟨lt, rfl⟩ := tick_elapsed_ok heq1
      have hc1 : ({ s with last_timer_expired_time := lt }).state = .Closed := hc
      rw [tick_item_phase_closed _ f now e1 hc1] at h
      dsimp only at h
      split at h
      · exact absurd h (by simp)
      · rename_i s3 res heq3
        obtain ⟨hs3, hres⟩ := tick_dispatch_closed heq3 hc1
        subst hres
        simp only [Except.ok.injEq, Prod.mk.injEq] at h
        obtain ⟨h1, h2⟩ := h
        subst h1
        subst h2
        exact ⟨tick_close_check_state_closed hs3, rfl⟩
  · intro s r p s' ur hc h
    obtain ⟨h1, h2⟩ := update_state_closed hc h
    subst h1
    subst h2
    exact ⟨hc, rfl⟩

/-- The lifetime invariant gives the weaker per-call bound used across one
`update_state` call. -/
theorem lifetimeInv_mid {s : Subscription} (hinv : LifetimeInv s) :
    s.state = .Closed ∨
      (1 ≤ s.current_lifetime_count ∧
        (2 ≤ s.current_lifetime_count → 2 ≤ s.max_lifetime_count)) := by
  rcases hinv with h | ⟨h1, h2, h3⟩ | ⟨h1, h2⟩
  · exact .inl h
  · exact .inr ⟨by omega, fun _ => by omega⟩
  · exact .inr ⟨by omega, fun _ => h2⟩

/-- Under the lifetime invariant the dispatch phase never panics. -/
theorem tick_dispatch_no_error {s : Subscription} {r : TickReason}
    {q e : Bool} {nm : Option NotificationMessage} {more : Bool} {now : Int}
    {m : String}
    (h : s.tick_dispatch r q e nm more now = .error m)
    (hr : ¬(r = .ReceivedPublishRequest ∧ e = true))
    (hinv : LifetimeInv s) : False := by
  unfold Subscription.tick_dispatch at h
  cases nm <;> dsimp only at h <;> split at h
  all_goals first
    | (split at h
       · rename_i heq
         exact update_state_no_error _ _ _ hr hinv _ heq
       · split at h <;> exact absurd h (by simp))
    | exact absurd h (by simp)

/-- Under the lifetime invariant, a successful dispatch keeps the lifetime
reset value and the per-call bound. -/
theorem tick_dispatch_lifetime {s s' : Subscription} {r : TickReason}
    {q e : Bool} {nm : Option NotificationMessage} {more : Bool} {now : Int}
    {out : Option NotificationMessage}
    (h : s.tick_dispatch r q e nm more now = .ok (s', out))
    (hr : ¬(r = .ReceivedPublishRequest ∧ e = true))
    (hinv : LifetimeInv s) :
    s'.max_lifetime_count = s.max_lifetime_count ∧
    (s'.state = .Closed ∨
      (1 ≤ s'.current_lifetime_count ∧
        (2 ≤ s'.current_lifetime_count → 2 ≤ s'.max_lifetime_count))) := by
  unfold Subscription.tick_dispatch at h
  cases nm <;> dsimp only at h <;> split at h
  case none.isFalse | some.isFalse =>
    simp only [Except.ok.injEq, Prod.mk.injEq] at h
    obtain ⟨h1, h2⟩ := h
    subst h1
    exact ⟨rfl, lifetimeInv_mid hinv⟩
  all_goals
    split at h
    · exact absurd h (by simp)
    · rename_i s2 ur heq
      have hmax := (update_state_preserves heq).2.2.1
      have hmid := update_state_lifetime_post hr hinv heq
      split at h <;>
        simp only [Except.ok.injEq, Prod.mk.injEq] at h <;>
        obtain ⟨h1, h2⟩ := h <;> subst h1
      all_goals exact ⟨hmax, hmid⟩

/-- One tick preserves the lifetime invariant, and can only panic on the
unrevised publishing interval — never by underflowing the lifetime
counter. -/
theorem tick_lifetime {s : Subscription} {f : ItemTickFn} {r : TickReason}
    {q : Bool} {now : Int} (hinv : LifetimeInv s) :
    (∀ s' out, s.tick f r q now = .ok (s', out) → LifetimeInv s') ∧
    (∀ m, s.tick f r q now = .error m → m = panicPublishingInterval) := by
  constructor
  · intro s' out h
    unfold Subscription.tick at h
    split at h
    · exact absurd h (by simp)
    · rename_i s1 e1 heq1
      obtain ⟨lt, rfl⟩ := tick_elapsed_ok heq1
      have hr : ¬(r = .ReceivedPublishRequest ∧ e1 = true) := by
        rintro ⟨rfl, rfl⟩
        rw [tick_elapsed_rpr] at heq1
        simp at heq1
      rcases hip : ({ s with last_timer_expired_time := lt }).tick_item_phase
          f now e1 with ⟨s2, nm, more⟩
      have hinv2 : LifetimeInv s2 := by
        rcases tick_item_phase_spec { s with last_timer_expired_time := lt }
            f now e1 with ⟨items, hipe⟩ | ⟨items, msgs, hipe⟩ <;>
          rw [hip] at hipe <;>
          simp only [Prod.mk.injEq] at hipe <;>
          rw [hipe.1] <;>
          exact hinv
      rw [hip] at h
      dsimp only at h
      split at h
      · exact absurd h (by simp)
      · rename_i s3 res heq3
        simp only [Except.ok.injEq, Prod.mk.injEq] at h
        obtain ⟨h1, h2⟩ := h
        subst h1
        obtain ⟨hmax, hmid⟩ := tick_dispatch_lifetime heq3 hr hinv2
        unfold Subscription.tick_close_check
        split
        · exact .inl rfl
        · rename_i hne
          rcases hmid with hcl | ⟨h1c, h2c⟩
          · exact .inl hcl
          · exact .inr (.inr ⟨by omega, h2c (by omega)⟩)
  · intro m h
    unfold Subscription.tick at h
    split at h
    · rename_i e' heqe
      injection h with h
      subst h
      exact tick_elapsed_error heqe
    · rename_i s1 e1 heq1
      obtain ⟨lt, rfl⟩ := tick_elapsed_ok heq1
      have hr : ¬(r = .ReceivedPublishRequest ∧ e1 = true) := by
        rintro ⟨rfl, rfl⟩
        rw [tick_elapsed_rpr] at heq1
        simp at heq1
      rcases hip : ({ s with last_timer_expired_time := lt }).tick_item_phase
          f now e1 with ⟨s2, nm, more⟩
      have hinv2 : LifetimeInv s2 := by
        rcases tick_item_phase_spec { s with last_timer_expired_time := lt }
            f now e1 with ⟨items, hipe⟩ | ⟨items, msgs, hipe⟩ <;>
          rw [hip] at hipe <;>
          simp only [Prod.mk.injEq] at hipe <;>
          rw [hipe.1] <;>
          exact hinv
      rw [hip] at h
      dsimp only at h
      split at h
      · rename_i e' heq3
        exact (tick_dispatch_no_error heq3 hr hinv2).elim
      · exact absurd h (by simp)

/-- Along any tick trace from a state satisfying the lifetime invariant, the
only possible panic is the unrevised-interval one. -/
theorem runTicks_lifetime_error {s : Subscription} {ins : List TickInput}
    {m : String} (hinv : LifetimeInv s) (h : runTicks s ins = .error m) :
    m = panicPublishingInterval := by
  induction ins generalizing s with
  | nil =>
    unfold runTicks at h
    exact absurd h (by simp)
  | cons i rest ih =>
    unfold runTicks at h
    split at h
    · rename_i e' heq
      injection h with h
      subst h
      exact (tick_lifetime hinv).2 _ heq
    · rename_i s1 out1 heq1
      have hinv1 := (tick_lifetime hinv).1 s1 out1 heq1
      split at h
      · rename_i e' heq2
        injection h with h
        subst h
        exact ih hinv1 heq2
      · exact absurd h (by simp)

/-- C5 counterexample: a subscription created by `Subscription::new` with
`lifetime_count = 0` and driven only through `tick` reaches the unguarded
`current_lifetime_count -= 1` with the counter at 0 on its second timer tick
— the subtraction underflows. -/
theorem c5_cex_underflow_from_zero_lifetime :
    runTicks (Subscription.new 1 true 100 0 3 0 0)
      [⟨tickNothing, .TickTimerFired, true, 100⟩,
       ⟨tickNothing, .TickTimerFired, true, 200⟩] =
      .error panicLifetimeUnderflow := by
  rfl

/-- C5 (amended): for a subscription created by `Subscription::new` with
`lifetime_count ≥ 1` and driven only through `tick`, the decrement in
`start_publishing_timer` never underflows — the only panic any tick trace
can raise is the unrevised-interval one. -/
theorem c5_no_lifetime_underflow :
    ∀ (sid : Nat) (pe : Bool) (pi : Int) (lc kc prio : Nat) (t0 : Int)
      (ins : List TickInput) (m : String),
      1 ≤ lc →
      runTicks (Subscription.new sid pe pi lc kc prio t0) ins = .error m →
      m = panicPublishingInterval ∧ m ≠ panicLifetimeUnderflow := by
  intro sid pe pi lc kc prio t0 ins m hL h
  have hinv : LifetimeInv (Subscription.new sid pe pi lc kc prio t0) :=
    .inr (.inl ⟨rfl, rfl, hL⟩)
  have hm := runTicks_lifetime_error hinv h
  subst hm
  exact ⟨rfl, by decide⟩

/-- C5 witness: `c5_no_lifetime_underflow` applied to a subscription created
with `lifetime_count = 1` and an unrevised interval of 0, whose second timer
tick panics with the interval panic — not the underflow. -/
theorem c5_no_lifetime_underflow_witness :
    (1 : Nat) ≤ 1 ∧
    runTicks (Subscription.new 1 true 0 1 3 0 0)
        [⟨tickNothing, .TickTimerFired, true, 100⟩,
         ⟨tickNothing, .TickTimerFired, true, 200⟩] =
      .error panicPublishingInterval ∧
    (panicPublishingInterval = panicPublishingInterval ∧
      panicPublishingInterval ≠ panicLifetimeUnderflow) :=
  ⟨by decide, by rfl,
   c5_no_lifetime_underflow 1 true 0 1 3 0 0
     [⟨tickNothing, .TickTimerFired, true, 100⟩,
      ⟨tickNothing, .TickTimerFired, true, 200⟩]
     panicPublishingInterval (by decide) (by rfl)⟩

/-- C6: the driver-contract violations panic: `update_state` with
`ReceivedPublishRequest` and an elapsed interval fails with the
assertion-class panic, and a timer tick on a non-`Creating` subscription with
`publishing_interval ≤ 0` fails with the interval panic. -/
theorem c6_driver_contract_violations_panic :
    (∀ (s : Subscription) (p : SubscriptionStateParams),
        p.publishing_interval_elapsed = true →
        s.update_state .ReceivedPublishRequest p = .error panicSimultaneous) ∧
    (∀ (s : Subscription) (f : ItemTickFn) (q : Bool) (now : Int),
        ¬s.state = .Creating → s.publishing_interval ≤ 0 →
        s.tick f .TickTimerFired q now = .error panicPublishingInterval) := by
  constructor
  · intro s p he
    unfold Subscription.update_state
    rw [if_pos ⟨rfl, he⟩]
  · intro s f q now hs hp
    unfold Subscription.tick
    rw [tick_elapsed_bad_interval hs hp]

/-- C6 witness: the two panics at concrete inputs. -/
theorem c6_driver_contract_violations_panic_witness :
    ((⟨false, false, false, true⟩ :
        SubscriptionStateParams).publishing_interval_elapsed = true ∧
      subC7.update_state .ReceivedPublishRequest ⟨false, false, false, true⟩ =
        .error panicSimultaneous) ∧
    (¬subBadInterval.state = .Creating ∧ subBadInterval.publishing_interval ≤ 0 ∧
      subBadInterval.tick tickNothing .TickTimerFired false 100 =
        .error panicPublishingInterval) :=
  ⟨⟨rfl, c6_driver_contract_violations_panic.1 subC7 ⟨false, false, false, true⟩ rfl⟩,
   ⟨by decide, by decide,
    c6_driver_contract_violations_panic.2 subBadInterval tickNothing false 100
      (by decide) (by decide)⟩⟩

/-- C7 counterexample: at the claim's exact input (fresh subscription,
interval 100 ms, lifetime 30, keep-alive 3, one request queued, timer tick at
`t = 100`), the single tick stops at `Normal` with the lifetime counter still
30 — not at `KeepAlive` with 29. -/
theorem c7_cex_single_tick_stops_at_normal :
    subC7.tick tickNothing .TickTimerFired true 100 = .ok (subC7post, none) ∧
    ¬(subC7post.state = .KeepAlive ∧
      subC7post.current_lifetime_count = 29) := by
  exact ⟨rfl, by decide⟩

/-- C7 (amended): the single `TickTimerFired` tick at `t = 100` on the fresh
subscription of scenario 1 performs only the Creating → Normal transition of
state #3: the lifetime counter stays 30, the keep-alive counter stays 3, and
nothing is emitted. -/
theorem c7_first_tick_goes_creating_to_normal :
    subC7.tick tickNothing .TickTimerFired true 100 = .ok (subC7post, none) ∧
    subC7post.state = .Normal ∧
    subC7post.current_lifetime_count = 30 ∧
    subC7post.current_keep_alive_count = 3 :=
  ⟨rfl, rfl, rfl, rfl⟩

/-- C1 witness: the three parts at concrete inputs — a rolled-back
notification (state #8), a keep-alive answering a rolled-back notification
(state #7), and a two-tick trace whose silent first tick is followed by an
emission carrying the original sequence number. -/
theorem c1_rollback_reuses_sequence_number_witness :
    subLate.next_sequence_number = subNormal.next_sequence_number ∧
    (subKAoffPost.next_sequence_number = subKAoff.next_sequence_number ∧
      1 = subKAoff.next_sequence_number) ∧
    1 = subNormal.next_sequence_number :=
  ⟨c1_rollback_reuses_sequence_number.1 subNormal tickNothing .TickTimerFired
     false 100 subLate rfl,
   c1_rollback_reuses_sequence_number.2.1 subKAoff tickNothing .TickTimerFired
     true 100 subKAoffPost 1 100 rfl,
   c1_rollback_reuses_sequence_number.2.2 subNormal
     [⟨tickNothing, .ReceivedPublishRequest, false, 0⟩,
      ⟨tickNothing, .TickTimerFired, true, 100⟩]
     subNormalEmitted [none] 1 100 itemThree.notification_queue (by rfl)
     (by decide)⟩

/-- C2 witness: the trace property at a concrete one-tick trace emitting one
`DataChange` with sequence number 1. -/
theorem c2_sequence_numbers_strictly_increase_witness :
    dataChangeSeqs [some (.data_change 1 100 itemThree.notification_queue)] =
        wrapChain subNormal.next_sequence_number
          (dataChangeSeqs
            [some (.data_change 1 100 itemThree.notification_queue)]).length ∧
      (∀ x ∈ dataChangeSeqs
          [some (.data_change 1 100 itemThree.notification_queue)], 1 ≤ x) ∧
      subNormalEmitted.next_sequence_number =
        wrapSucc^[(dataChangeSeqs
          [some (.data_change 1 100 itemThree.notification_queue)]).length]
          subNormal.next_sequence_number :=
  c2_sequence_numbers_strictly_increase subNormal
    [⟨tickNothing, .TickTimerFired, true, 100⟩] subNormalEmitted
    [some (.data_change 1 100 itemThree.notification_queue)] (by rfl) (by decide)

/-- C4 witness: the three parts at concrete inputs — a tick whose decrement
reaches 1 ends `Closed`; a tick on a closed subscription stays `Closed` and
silent; `update_state` on a closed subscription acts `None`. -/
theorem c4_lifetime_one_closes_and_closed_is_terminal_witness :
    subExpired.state = .Closed ∧
    (subClosed.state = .Closed ∧ (none : Option NotificationMessage) = none) ∧
    (subClosed.state = .Closed ∧
      (⟨.Closed1, .None⟩ : UpdateStateResult).update_state_action = .None) :=
  ⟨c4_lifetime_one_closes_and_closed_is_terminal.1 subExpiring tickNothing
     .TickTimerFired false 100 subExpired none (by rfl) (by decide),
   c4_lifetime_one_closes_and_closed_is_terminal.2.1 subClosed tickNothing
     .ReceivedPublishRequest false 5 subClosed none (by decide) (by rfl),
   c4_lifetime_one_closes_and_closed_is_terminal.2.2 subClosed .TickTimerFired
     ⟨false, false, false, true⟩ subClosed ⟨.Closed1, .None⟩ (by decide) (by rfl)⟩

end Opcua
